import Mathlib

/-!
Verification of the simulation core of the mncjg-platform repository
(src/src/App.js): the NGBoost-inspired prediction model `predictRemoval`,
the stochastic optimizer `bayesianOptimize`, and the SHAP-like attribution
`computeSHAP`.  The JavaScript numeric semantics is embedded over the real
numbers; `Math.round(x * 100) / 100` and `(+x.toFixed(2))` both round half
toward positive infinity, which is Lean's `round` applied to `x * 100`.
The implicit global random generator of the optimizer is modelled as an
explicit stream `u : ℕ → ℝ` of unit samples, three per iteration.
-/

namespace Mncjg

/-- Rounding to 2 decimal places, as JS `Math.round(x*100)/100` and
`+x.toFixed(2)` behave on exact decimal inputs (half toward +inf). -/
noncomputable def round2 (x : ℝ) : ℝ := ((round (x * 100) : ℤ) : ℝ) / 100

/-- Rounding to 1 decimal place, as JS `+x.toFixed(1)`. -/
noncomputable def round1 (x : ℝ) : ℝ := ((round (x * 10) : ℤ) : ℝ) / 10

/-- Coefficients of one adsorbent material in `MODEL_PARAMS` (App.js:13). -/
structure MaterialParams where
  base : ℝ
  timeK : ℝ
  phOpt : ℝ
  phSens : ℝ
  concDecay : ℝ
  synergy : ℝ

/-- Coefficients of one pollutant in `POLLUTANT_MOD` (App.js:21). -/
structure PollutantParams where
  phDir : ℤ
  optMul : ℝ
  concBase : ℝ

/-- The material registry `MODEL_PARAMS` (App.js:13-19); JS object property
lookup on an unknown key yields `undefined`, modelled as `none`. -/
def MODEL_PARAMS (adsorbent : String) : Option MaterialParams :=
  if adsorbent = "MNCJG" then some ⟨92, 0.18, 6.0, 3.5, 0.008, 5⟩
  else if adsorbent = "MNC" then some ⟨78, 0.14, 6.0, 4.0, 0.012, 0⟩
  else if adsorbent = "NC" then some ⟨55, 0.10, 5.5, 5.0, 0.018, 0⟩
  else if adsorbent = "NCJG" then some ⟨72, 0.15, 6.0, 3.8, 0.010, 3⟩
  else if adsorbent = "MWM" then some ⟨65, 0.12, 5.5, 4.5, 0.015, 0⟩
  else none

/-- The pollutant registry `POLLUTANT_MOD` (App.js:21-26). -/
def POLLUTANT_MOD (pollutant : String) : Option PollutantParams :=
  if pollutant = "Cd(II)" then some ⟨1, 1.05, 5⟩
  else if pollutant = "Pb(II)" then some ⟨1, 1.08, 5⟩
  else if pollutant = "As(III)" then some ⟨-1, 0.92, 5⟩
  else if pollutant = "Nap" then some ⟨0, 0.88, 50⟩
  else none

/-- Result record of `predictRemoval`: `{mean, std}` (App.js:59). -/
structure PredictionResult where
  mean : ℝ
  std : ℝ

/-- Kinetic component `1 - Math.exp(-m.timeK * time)` (App.js:34). -/
noncomputable def kineticFactor (timeK time : ℝ) : ℝ :=
  1 - Real.exp (-timeK * time)

/-- The pH effect selected by the pollutant direction (App.js:37-44). -/
noncomputable def phFactor (phDir : ℤ) (pH : ℝ) : ℝ :=
  if phDir = 1 then 1 / (1 + Real.exp (-1.5 * (pH - 4.5)))
  else if phDir = -1 then 1 / (1 + Real.exp (1.2 * (pH - 6.5)))
  else 0.85 + 0.15 * Real.exp (-0.3 * (pH - 6) ^ 2)

/-- Concentration effect `Math.exp(-m.concDecay * (concentration - p.concBase))`
(App.js:47). -/
noncomputable def concFactor (concDecay concentration concBase : ℝ) : ℝ :=
  Real.exp (-concDecay * (concentration - concBase))

/-- The prediction function `predictRemoval` (App.js:28-60).  Unknown
identifiers yield the fallback `{mean: 0, std: 5}`; otherwise the removal is
the product of the kinetic, pH, concentration, pollutant-multiplier and
competition factors scaled by the base capacity, plus the synergy bonus,
clamped to [0,100]; both outputs are rounded to 2 decimals. -/
noncomputable def predictRemoval (adsorbent pollutant : String)
    (pH concentration time : ℝ) (competition : Bool) : PredictionResult :=
  match MODEL_PARAMS adsorbent, POLLUTANT_MOD pollutant with
  | some m, some p =>
      { mean := round2 (min 100 (max 0
          (m.base * kineticFactor m.timeK time * phFactor p.phDir pH *
            concFactor m.concDecay concentration p.concBase * p.optMul *
            (if competition then 0.92 else 1.0) + m.synergy))),
        std := round2 (2.0 + 3.0 * (1 - kineticFactor m.timeK time) +
          1.5 * |pH - m.phOpt| / 3) }
  | _, _ => { mean := 0, std := 5 }

/-! ### Generic facts about 2-decimal rounding -/

theorem round2_mono {x y : ℝ} (h : x ≤ y) : round2 x ≤ round2 y := by
  unfold round2
  have h1 : round (x * 100) ≤ round (y * 100) := by
    rw [round_eq, round_eq]
    exact Int.floor_mono (by linarith)
  have h2 : ((round (x * 100) : ℤ) : ℝ) ≤ ((round (y * 100) : ℤ) : ℝ) := by
    exact_mod_cast h1
  linarith

theorem round2_intCast (k : ℤ) : round2 ((k : ℝ) / 100) = (k : ℝ) / 100 := by
  unfold round2
  rw [div_mul_cancel₀, round_intCast]
  norm_num

theorem abs_round2_sub (x : ℝ) : |round2 x - x| ≤ 1 / 200 := by
  unfold round2
  have h := abs_sub_round (x * 100)
  rw [abs_sub_comm, abs_le] at h
  rw [abs_le]
  constructor
  · linarith [h.1]
  · linarith [h.2]

/-- Every mean produced by `predictRemoval` is an integer number of
hundredths (2-decimal rounding, or the exact fallback 0). -/
theorem predict_mean_centi (adsorbent pollutant : String)
    (pH concentration time : ℝ) (competition : Bool) :
    ∃ k : ℤ, (predictRemoval adsorbent pollutant pH concentration time
      competition).mean = (k : ℝ) / 100 := by
  unfold predictRemoval
  cases hm : MODEL_PARAMS adsorbent with
  | none => exact ⟨0, by norm_num⟩
  | some m =>
    cases hp : POLLUTANT_MOD pollutant with
    | none => exact ⟨0, by norm_num⟩
    | some p => exact ⟨_, rfl⟩

/-- Difference of two 2-decimal values is exact under a further 2-decimal
rounding. -/
theorem round2_centi_sub {a b : ℝ} (ha : ∃ k : ℤ, a = (k : ℝ) / 100)
    (hb : ∃ k : ℤ, b = (k : ℝ) / 100) : round2 (a - b) = a - b := by
  obtain ⟨k, rfl⟩ := ha
  obtain ⟨m, rfl⟩ := hb
  have : (k : ℝ) / 100 - (m : ℝ) / 100 = ((k - m : ℤ) : ℝ) / 100 := by
    push_cast
    ring
  rw [this, round2_intCast]

theorem round2_centi_abs {a : ℝ} (ha : ∃ k : ℤ, a = (k : ℝ) / 100) :
    round2 |a| = |a| := by
  obtain ⟨k, rfl⟩ := ha
  have : |(k : ℝ) / 100| = ((|k| : ℤ) : ℝ) / 100 := by
    rw [abs_div, Int.cast_abs]
    norm_num
  rw [this, round2_intCast]

/-! ### Numeric bounds on the exponentials used by the model -/

theorem exp_quarter_bounds :
    (1.28400 : ℝ) < Real.exp 0.25 ∧ Real.exp 0.25 < 1.28403 := by
  have h := Real.exp_bound (show |(0.25 : ℝ)| ≤ 1 by rw [abs_le]; norm_num)
    (show (0 : ℕ) < 5 by norm_num)
  norm_num [Finset.sum_range_succ, Nat.factorial, abs_le, abs_of_nonneg] at h
  rw [show (0.25 : ℝ) = 1 / 4 by norm_num]
  constructor <;> linarith [h.1, h.2]

theorem exp_two_fifths_bounds :
    (1.49163 : ℝ) < Real.exp 0.4 ∧ Real.exp 0.4 < 1.49184 := by
  have h := Real.exp_bound (show |(0.4 : ℝ)| ≤ 1 by rw [abs_le]; norm_num)
    (show (0 : ℕ) < 5 by norm_num)
  norm_num [Finset.sum_range_succ, Nat.factorial, abs_le, abs_of_nonneg] at h
  rw [show (0.4 : ℝ) = 2 / 5 by norm_num]
  constructor <;> linarith [h.1, h.2]

theorem exp_half_lt : Real.exp 0.5 < 1.64873 := by
  have h := Real.exp_bound (show |(0.5 : ℝ)| ≤ 1 by rw [abs_le]; norm_num)
    (show (0 : ℕ) < 6 by norm_num)
  norm_num [Finset.sum_range_succ, Nat.factorial, abs_le, abs_of_nonneg] at h
  rw [show (0.5 : ℝ) = 1 / 2 by norm_num]
  linarith [h.1, h.2]

theorem exp_two_bounds :
    (7.389056 : ℝ) < Real.exp 2 ∧ Real.exp 2 < 7.3890561 := by
  have e2 : Real.exp 2 = Real.exp 1 ^ 2 := by
    rw [← Real.exp_nat_mul]
    norm_num
  have h1 := Real.exp_one_gt_d9
  have h2 := Real.exp_one_lt_d9
  rw [e2]
  constructor <;> nlinarith

theorem exp_five_bounds :
    (148.413 : ℝ) < Real.exp 5 ∧ Real.exp 5 < 148.4132 := by
  have e5 : Real.exp 5 = Real.exp 1 ^ 5 := by
    rw [← Real.exp_nat_mul]
    norm_num
  rw [e5]
  constructor
  · calc (148.413 : ℝ) < 2.7182818283 ^ 5 := by norm_num
    _ < Real.exp 1 ^ 5 :=
        pow_lt_pow_left₀ Real.exp_one_gt_d9 (by norm_num) (by norm_num)
  · calc Real.exp 1 ^ 5 < 2.7182818286 ^ 5 :=
        pow_lt_pow_left₀ Real.exp_one_lt_d9 (le_of_lt (Real.exp_pos 1))
          (by norm_num)
    _ < 148.4132 := by norm_num

theorem exp_225_bounds :
    (9.487 : ℝ) < Real.exp 2.25 ∧ Real.exp 2.25 < 9.488 := by
  have e : Real.exp 2.25 = Real.exp 2 * Real.exp 0.25 := by
    rw [← Real.exp_add]
    norm_num
  have h2 := exp_two_bounds
  have hq := exp_quarter_bounds
  rw [e]
  constructor <;> nlinarith [h2.1, h2.2, hq.1, hq.2, Real.exp_pos 2,
    Real.exp_pos 0.25]

theorem exp_54_bounds :
    (221.37 : ℝ) < Real.exp 5.4 ∧ Real.exp 5.4 < 221.41 := by
  have e : Real.exp 5.4 = Real.exp 5 * Real.exp 0.4 := by
    rw [← Real.exp_add]
    norm_num
  have h5 := exp_five_bounds
  have h4 := exp_two_fifths_bounds
  rw [e]
  constructor <;> nlinarith [h5.1, h5.2, h4.1, h4.2, Real.exp_pos 5,
    Real.exp_pos 0.4]

theorem exp_27_gt : (10 : ℝ) < Real.exp 2.7 := by
  have e : Real.exp 2.7 = Real.exp 2 * Real.exp 0.7 := by
    rw [← Real.exp_add]
    norm_num
  have h2 := exp_two_bounds
  have h7 : (1.7 : ℝ) < Real.exp 0.7 := by
    have := Real.add_one_lt_exp (show (0.7 : ℝ) ≠ 0 by norm_num)
    linarith
  rw [e]
  nlinarith [h2.1, Real.exp_pos 0.7]

theorem exp_15_lt : Real.exp 1.5 < 4.545 := by
  have e : Real.exp 1.5 = Real.exp 1 * Real.exp 0.5 := by
    rw [← Real.exp_add]
    norm_num
  have h1 := Real.exp_one_lt_d9
  have h5 := exp_half_lt
  rw [e]
  nlinarith [Real.exp_pos 1, Real.exp_pos 0.5]

/-! ### Elementary facts about the registries and factors -/

theorem MODEL_PARAMS_fields {a : String} {m : MaterialParams}
    (h : MODEL_PARAMS a = some m) :
    0 < m.base ∧ 0 < m.timeK ∧ 0 < m.concDecay ∧ 0 ≤ m.synergy := by
  unfold MODEL_PARAMS at h
  split_ifs at h <;>
    first
      | (simp only [Option.some.injEq] at h; subst h; norm_num)
      | simp at h

theorem POLLUTANT_MOD_fields {p : String} {q : PollutantParams}
    (h : POLLUTANT_MOD p = some q) : 0 < q.optMul ∧ 0 < q.concBase := by
  unfold POLLUTANT_MOD at h
  split_ifs at h <;>
    first
      | (simp only [Option.some.injEq] at h; subst h; norm_num)
      | simp at h

theorem phFactor_pos (d : ℤ) (pH : ℝ) : 0 < phFactor d pH := by
  unfold phFactor
  split_ifs <;> positivity

theorem concFactor_pos (d c b : ℝ) : 0 < concFactor d c b := Real.exp_pos _

theorem compPenalty_pos (competition : Bool) :
    (0 : ℝ) < (if competition then 0.92 else 1.0) := by
  split <;> norm_num

theorem kineticFactor_lt_one (timeK time : ℝ) : kineticFactor timeK time < 1 := by
  unfold kineticFactor
  have := Real.exp_pos (-timeK * time)
  linarith

theorem kineticFactor_nonneg {timeK time : ℝ} (hk : 0 < timeK) (ht : 0 ≤ time) :
    0 ≤ kineticFactor timeK time := by
  unfold kineticFactor
  have h : Real.exp (-timeK * time) ≤ 1 :=
    Real.exp_le_one_iff.mpr (by nlinarith)
  linarith

theorem round2_zero : round2 0 = 0 := by
  unfold round2
  norm_num

theorem round2_two : round2 2 = 2 := by
  have := round2_intCast 200
  norm_num at this
  exact this

theorem round2_hundred : round2 100 = 100 := by
  have := round2_intCast 10000
  norm_num at this
  exact this

/-! ### Claim C3: unknown identifiers give the exact fallback result -/

/-- C3: for every pH, concentration, contact time and competition flag, if the
material identifier is not one of the five registered materials, or the
contaminant identifier is not one of the four registered contaminants, then
`predictRemoval` returns exactly the fallback result mean 0, std 5 (it is a
total function, so no exception can be raised). -/
theorem predict_unknown_fallback (adsorbent pollutant : String)
    (pH concentration time : ℝ) (competition : Bool)
    (h : adsorbent ∉ ["MNCJG", "MNC", "NC", "NCJG", "MWM"] ∨
         pollutant ∉ ["Cd(II)", "Pb(II)", "As(III)", "Nap"]) :
    predictRemoval adsorbent pollutant pH concentration time competition =
      { mean := 0, std := 5 } := by
  have hnone : MODEL_PARAMS adsorbent = none ∨ POLLUTANT_MOD pollutant = none := by
    rcases h with h | h
    · left
      simp only [List.mem_cons, List.not_mem_nil, or_false, not_or] at h
      obtain ⟨h1, h2, h3, h4, h5⟩ := h
      unfold MODEL_PARAMS
      rw [if_neg h1, if_neg h2, if_neg h3, if_neg h4, if_neg h5]
    · right
      simp only [List.mem_cons, List.not_mem_nil, or_false, not_or] at h
      obtain ⟨h1, h2, h3, h4⟩ := h
      unfold POLLUTANT_MOD
      rw [if_neg h1, if_neg h2, if_neg h3, if_neg h4]
  unfold predictRemoval
  cases hm : MODEL_PARAMS adsorbent with
  | none =>
    cases hp : POLLUTANT_MOD pollutant with
    | none => rfl
    | some q => rfl
  | some m =>
    cases hp : POLLUTANT_MOD pollutant with
    | none => rfl
    | some q =>
      rcases hnone with hc | hc
      · rw [hm] at hc; exact absurd hc (by simp)
      · rw [hp] at hc; exact absurd hc (by simp)

/-- Witness for C3 at the concrete unknown material identifier `"XX"`. -/
theorem predict_unknown_fallback_witness :
    ("XX" ∉ ["MNCJG", "MNC", "NC", "NCJG", "MWM"] ∨
      "Cd(II)" ∉ ["Cd(II)", "Pb(II)", "As(III)", "Nap"]) ∧
    predictRemoval "XX" "Cd(II)" 6 10 15 false = { mean := 0, std := 5 } :=
  ⟨Or.inl (by decide),
    predict_unknown_fallback "XX" "Cd(II)" 6 10 15 false (Or.inl (by decide))⟩

/-! ### Claim C4: output ranges of the prediction -/

/-- C4: for every input (including unknown identifiers and out-of-domain
numbers), the returned mean lies in [0, 100] and the returned std is
strictly positive. -/
theorem predict_mean_in_range_std_pos (adsorbent pollutant : String)
    (pH concentration time : ℝ) (competition : Bool) :
    0 ≤ (predictRemoval adsorbent pollutant pH concentration time competition).mean ∧
    (predictRemoval adsorbent pollutant pH concentration time competition).mean ≤ 100 ∧
    0 < (predictRemoval adsorbent pollutant pH concentration time competition).std := by
  unfold predictRemoval
  cases hm : MODEL_PARAMS adsorbent with
  | none =>
    cases hp : POLLUTANT_MOD pollutant with
    | none => norm_num
    | some q => norm_num
  | some m =>
    cases hp : POLLUTANT_MOD pollutant with
    | none => norm_num
    | some q =>
      simp only
      constructor
      · calc (0 : ℝ) = round2 0 := round2_zero.symm
          _ ≤ _ := round2_mono (le_min (by norm_num) (le_max_left _ _))
      constructor
      · calc _ ≤ round2 100 := round2_mono (min_le_left _ _)
          _ = 100 := round2_hundred
      · have hexp : (0 : ℝ) < 1 - kineticFactor m.timeK time := by
          unfold kineticFactor
          have := Real.exp_pos (-m.timeK * time)
          linarith
        have habs : (0 : ℝ) ≤ |pH - m.phOpt| := abs_nonneg _
        have h2 : (2 : ℝ) ≤ 2.0 + 3.0 * (1 - kineticFactor m.timeK time) +
            1.5 * |pH - m.phOpt| / 3 := by nlinarith
        have := round2_mono h2
        rw [round2_two] at this
        linarith

/-! ### Claims C7 and C8: monotonicity of the prediction -/

theorem phFactor_one_mono {pH1 pH2 : ℝ} (h : pH1 ≤ pH2) :
    phFactor 1 pH1 ≤ phFactor 1 pH2 := by
  unfold phFactor
  rw [if_pos rfl, if_pos rfl]
  have he : Real.exp (-1.5 * (pH2 - 4.5)) ≤ Real.exp (-1.5 * (pH1 - 4.5)) :=
    Real.exp_le_exp.mpr (by nlinarith)
  have d2 : (0 : ℝ) < 1 + Real.exp (-1.5 * (pH2 - 4.5)) := by positivity
  exact one_div_le_one_div_of_le d2 (by linarith)

/-- C7: for every resolvable material and contaminant pair, fixed pH,
concentration and competition flag, and contact times 0 ≤ t1 < t2, the
kinetic factor is strictly larger at t2 and the returned mean removal is
non-decreasing in contact time. -/
theorem predict_time_monotone (adsorbent pollutant : String)
    {m : MaterialParams} {q : PollutantParams}
    (hm : MODEL_PARAMS adsorbent = some m)
    (hq : POLLUTANT_MOD pollutant = some q)
    (pH concentration : ℝ) (competition : Bool) {t1 t2 : ℝ}
    (ht0 : 0 ≤ t1) (ht : t1 < t2) :
    kineticFactor m.timeK t1 < kineticFactor m.timeK t2 ∧
    (predictRemoval adsorbent pollutant pH concentration t1 competition).mean ≤
      (predictRemoval adsorbent pollutant pH concentration t2 competition).mean := by
  obtain ⟨hbase, htimeK, hdecay, hsyn⟩ := MODEL_PARAMS_fields hm
  obtain ⟨hopt, hcb⟩ := POLLUTANT_MOD_fields hq
  have hkin : kineticFactor m.timeK t1 < kineticFactor m.timeK t2 := by
    unfold kineticFactor
    have : Real.exp (-m.timeK * t2) < Real.exp (-m.timeK * t1) :=
      Real.exp_lt_exp.mpr (by nlinarith)
    linarith
  refine ⟨hkin, ?_⟩
  unfold predictRemoval
  rw [hm, hq]
  simp only
  apply round2_mono
  apply min_le_min le_rfl
  apply max_le_max le_rfl
  have hprod : (0 : ℝ) ≤ m.base * phFactor q.phDir pH *
      concFactor m.concDecay concentration q.concBase * q.optMul *
      (if competition then 0.92 else 1.0) := by
    have h1 := phFactor_pos q.phDir pH
    have h2 := concFactor_pos m.concDecay concentration q.concBase
    have h3 := compPenalty_pos competition
    positivity
  have hmul := mul_le_mul_of_nonneg_left hkin.le hprod
  nlinarith [hmul]

/-- Witness for C7 at MNCJG, Cd(II), pH 6, concentration 5, times 0 and 30. -/
theorem predict_time_monotone_witness :
    MODEL_PARAMS "MNCJG" = some ⟨92, 0.18, 6.0, 3.5, 0.008, 5⟩ ∧
    POLLUTANT_MOD "Cd(II)" = some ⟨1, 1.05, 5⟩ ∧
    (0 : ℝ) ≤ 0 ∧ (0 : ℝ) < 30 ∧
    (kineticFactor (0.18 : ℝ) 0 < kineticFactor (0.18 : ℝ) 30 ∧
      (predictRemoval "MNCJG" "Cd(II)" 6 5 0 false).mean ≤
        (predictRemoval "MNCJG" "Cd(II)" 6 5 30 false).mean) :=
  ⟨(by norm_num [ MODEL_PARAMS]), (by norm_num [POLLUTANT_MOD]), le_refl 0,
    by norm_num,
    @predict_time_monotone "MNCJG" "Cd(II)" ⟨92, 0.18, 6.0, 3.5, 0.008, 5⟩
      ⟨1, 1.05, 5⟩ (by norm_num [ MODEL_PARAMS]) (by norm_num [POLLUTANT_MOD])
      6 5 false 0 30 (le_refl 0) (by norm_num)⟩

/-- C8: for every resolvable material, a contaminant favored at high pH
(direction 1), fixed concentration, non-negative contact time and
competition flag, the returned mean removal is non-decreasing in pH. -/
theorem predict_pH_monotone (adsorbent pollutant : String)
    {m : MaterialParams} {q : PollutantParams}
    (hm : MODEL_PARAMS adsorbent = some m)
    (hq : POLLUTANT_MOD pollutant = some q) (hdir : q.phDir = 1)
    (concentration : ℝ) {time : ℝ} (htime : 0 ≤ time) (competition : Bool)
    {pH1 pH2 : ℝ} (hph : pH1 ≤ pH2) :
    (predictRemoval adsorbent pollutant pH1 concentration time competition).mean ≤
      (predictRemoval adsorbent pollutant pH2 concentration time competition).mean := by
  obtain ⟨hbase, htimeK, hdecay, hsyn⟩ := MODEL_PARAMS_fields hm
  obtain ⟨hopt, hcb⟩ := POLLUTANT_MOD_fields hq
  unfold predictRemoval
  rw [hm, hq]
  simp only
  rw [hdir]
  apply round2_mono
  apply min_le_min le_rfl
  apply max_le_max le_rfl
  have hphm : phFactor 1 pH1 ≤ phFactor 1 pH2 := phFactor_one_mono hph
  have hprod : (0 : ℝ) ≤ m.base * kineticFactor m.timeK time *
      concFactor m.concDecay concentration q.concBase * q.optMul *
      (if competition then 0.92 else 1.0) := by
    have h1 := kineticFactor_nonneg htimeK htime
    have h2 := concFactor_pos m.concDecay concentration q.concBase
    have h3 := compPenalty_pos competition
    positivity
  have hmul := mul_le_mul_of_nonneg_left hphm hprod
  nlinarith [hmul]

/-- Witness for C8 at MNCJG, Cd(II), concentration 5, time 30, pH 4 and 7. -/
theorem predict_pH_monotone_witness :
    MODEL_PARAMS "MNCJG" = some ⟨92, 0.18, 6.0, 3.5, 0.008, 5⟩ ∧
    POLLUTANT_MOD "Cd(II)" = some ⟨1, 1.05, 5⟩ ∧
    (0 : ℝ) ≤ 30 ∧ (4 : ℝ) ≤ 7 ∧
    (predictRemoval "MNCJG" "Cd(II)" 4 5 30 false).mean ≤
      (predictRemoval "MNCJG" "Cd(II)" 7 5 30 false).mean :=
  ⟨(by norm_num [ MODEL_PARAMS]), (by norm_num [POLLUTANT_MOD]), by norm_num,
    by norm_num,
    @predict_pH_monotone "MNCJG" "Cd(II)" ⟨92, 0.18, 6.0, 3.5, 0.008, 5⟩
      ⟨1, 1.05, 5⟩ (by norm_num [ MODEL_PARAMS]) (by norm_num [POLLUTANT_MOD])
      (by norm_num) 5 30 (by norm_num) false 4 7 (by norm_num)⟩

/-! ### Bounds on the factors at the concrete operating points of C1 and C2 -/

theorem phFactor_one_six_bounds :
    (0.9045 : ℝ) < phFactor 1 6 ∧ phFactor 1 6 < 0.9047 := by
  have e : phFactor 1 6 = 1 / (1 + (Real.exp 2.25)⁻¹) := by
    unfold phFactor
    rw [if_pos rfl, show (-1.5 : ℝ) * (6 - 4.5) = -2.25 by norm_num,
      Real.exp_neg]
  have hE := exp_225_bounds
  have hp : (0 : ℝ) < Real.exp 2.25 := Real.exp_pos _
  have hx1 : (Real.exp 2.25)⁻¹ < 1 / 9.487 := by
    rw [inv_eq_one_div]
    exact one_div_lt_one_div_of_lt (by norm_num) hE.1
  have hx2 : (1 : ℝ) / 9.488 < (Real.exp 2.25)⁻¹ := by
    rw [inv_eq_one_div]
    exact one_div_lt_one_div_of_lt hp hE.2
  have hden : (0 : ℝ) < 1 + (Real.exp 2.25)⁻¹ := by positivity
  rw [e]
  constructor
  · rw [lt_div_iff hden]
    nlinarith
  · rw [div_lt_iff hden]
    nlinarith

theorem kinetic_018_30_bounds :
    (0.99548 : ℝ) < kineticFactor 0.18 30 ∧ kineticFactor 0.18 30 < 0.99549 := by
  unfold kineticFactor
  rw [show (-(0.18 : ℝ) * 30) = -5.4 by norm_num, Real.exp_neg]
  have h := exp_54_bounds
  have hp : (0 : ℝ) < Real.exp 5.4 := Real.exp_pos _
  have hx1 : (Real.exp 5.4)⁻¹ < 1 / 221.37 := by
    rw [inv_eq_one_div]
    exact one_div_lt_one_div_of_lt (by norm_num) h.1
  have hx2 : (1 : ℝ) / 221.41 < (Real.exp 5.4)⁻¹ := by
    rw [inv_eq_one_div]
    exact one_div_lt_one_div_of_lt hp h.2
  constructor <;> linarith

theorem kinetic_018_15_bounds :
    (0.9 : ℝ) < kineticFactor 0.18 15 ∧ kineticFactor 0.18 15 < 1 := by
  refine ⟨?_, kineticFactor_lt_one _ _⟩
  unfold kineticFactor
  rw [show (-(0.18 : ℝ) * 15) = -2.7 by norm_num, Real.exp_neg]
  have h := exp_27_gt
  have hp : (0 : ℝ) < Real.exp 2.7 := Real.exp_pos _
  have hx : (Real.exp 2.7)⁻¹ < 1 / 10 := by
    rw [inv_eq_one_div]
    exact one_div_lt_one_div_of_lt (by norm_num) h
  linarith

theorem kinetic_010_15_bounds :
    (0 : ℝ) < kineticFactor 0.10 15 ∧ kineticFactor 0.10 15 < 0.78 := by
  constructor
  · have := kineticFactor_nonneg (show (0:ℝ) < 0.10 by norm_num)
      (show (0:ℝ) ≤ 15 by norm_num)
    rcases eq_or_lt_of_le this with h | h
    · exfalso
      unfold kineticFactor at h
      have hpos := Real.exp_pos (-(0.10 : ℝ) * 15)
      have h1 : Real.exp (-(0.10 : ℝ) * 15) < 1 :=
        Real.exp_lt_one_iff.mpr (by norm_num)
      linarith [h.symm]
    · exact h
  · unfold kineticFactor
    rw [show (-(0.10 : ℝ) * 15) = -1.5 by norm_num, Real.exp_neg]
    have h := exp_15_lt
    have hp : (0 : ℝ) < Real.exp 1.5 := Real.exp_pos _
    have hx : (1 : ℝ) / 4.545 < (Real.exp 1.5)⁻¹ := by
      rw [inv_eq_one_div]
      exact one_div_lt_one_div_of_lt hp h
    linarith

theorem concFactor_008_5_5 : concFactor 0.008 5 5 = 1 := by
  unfold concFactor
  norm_num

theorem concFactor_008_10_5_bounds :
    (0.96 : ℝ) < concFactor 0.008 10 5 ∧ concFactor 0.008 10 5 < 1 := by
  unfold concFactor
  rw [show (-(0.008 : ℝ) * (10 - 5)) = -0.04 by norm_num]
  constructor
  · have := Real.add_one_lt_exp (show (-0.04 : ℝ) ≠ 0 by norm_num)
    linarith
  · exact Real.exp_lt_one_iff.mpr (by norm_num)

theorem concFactor_018_10_5_bounds :
    (0 : ℝ) < concFactor 0.018 10 5 ∧ concFactor 0.018 10 5 < 1 := by
  refine ⟨Real.exp_pos _, ?_⟩
  unfold concFactor
  exact Real.exp_lt_one_iff.mpr (by norm_num)

/-! ### Evaluation of the prediction at the concrete points of C1 and C2 -/

theorem predict_MNCJG_Cd_6_5_30_eval :
    (predictRemoval "MNCJG" "Cd(II)" 6 5 30 false).mean =
      round2 (min 100 (max 0
        (92 * kineticFactor 0.18 30 * phFactor 1 6 * concFactor 0.008 5 5 *
          1.05 * 1.0 + 5))) := by
  norm_num [predictRemoval, MODEL_PARAMS, POLLUTANT_MOD, String.reduceEq]

theorem predict_MNCJG_Cd_6_10_15_eval :
    (predictRemoval "MNCJG" "Cd(II)" 6 10 15 false).mean =
      round2 (min 100 (max 0
        (92 * kineticFactor 0.18 15 * phFactor 1 6 * concFactor 0.008 10 5 *
          1.05 * 1.0 + 5))) := by
  norm_num [predictRemoval, MODEL_PARAMS, POLLUTANT_MOD, String.reduceEq]

theorem MODEL_PARAMS_NC :
    MODEL_PARAMS "NC" = some ⟨55, 0.10, 5.5, 5.0, 0.018, 0⟩ := by
  unfold MODEL_PARAMS
  rw [if_neg (by decide), if_neg (by decide), if_pos rfl]

theorem POLLUTANT_MOD_Cd :
    POLLUTANT_MOD "Cd(II)" = some ⟨1, 1.05, 5⟩ := by
  unfold POLLUTANT_MOD
  rw [if_pos rfl]

theorem predict_NC_Cd_6_10_15_eval :
    (predictRemoval "NC" "Cd(II)" 6 10 15 false).mean =
      round2 (min 100 (max 0
        (55 * kineticFactor 0.10 15 * phFactor 1 6 * concFactor 0.018 10 5 *
          1.05 * 1.0 + 0))) := by
  unfold predictRemoval
  rw [ MODEL_PARAMS_NC, POLLUTANT_MOD_Cd]
  simp only
  norm_num

theorem mean_MNCJG_Cd_6_10_15_gt :
    (80 : ℝ) < (predictRemoval "MNCJG" "Cd(II)" 6 10 15 false).mean := by
  rw [predict_MNCJG_Cd_6_10_15_eval]
  have hk := kinetic_018_15_bounds
  have hph := phFactor_one_six_bounds
  have hc := concFactor_008_10_5_bounds
  have h1 : (0.9 : ℝ) * 0.9045 < kineticFactor 0.18 15 * phFactor 1 6 := by
    nlinarith [hk.1, hph.1]
  have h2 : (0.9 : ℝ) * 0.9045 * 0.96 <
      kineticFactor 0.18 15 * phFactor 1 6 * concFactor 0.008 10 5 := by
    nlinarith [h1, hc.1, hk.1, hph.1]
  set raw := 92 * kineticFactor 0.18 15 * phFactor 1 6 *
    concFactor 0.008 10 5 * 1.05 * 1.0 + 5 with hraw
  have hrawgt : (80.4 : ℝ) < raw := by
    rw [hraw]
    nlinarith [h2]
  have hv : (80.4 : ℝ) ≤ min 100 (max 0 raw) := by
    apply le_min (by norm_num)
    exact le_trans hrawgt.le (le_max_right _ _)
  have hr := abs_round2_sub (min 100 (max 0 raw))
  rw [abs_le] at hr
  linarith [hr.1, hr.2]

theorem mean_NC_Cd_6_10_15_lt :
    (predictRemoval "NC" "Cd(II)" 6 10 15 false).mean < 41 := by
  rw [predict_NC_Cd_6_10_15_eval]
  have hk := kinetic_010_15_bounds
  have hph := phFactor_one_six_bounds
  have hc := concFactor_018_10_5_bounds
  have h1 : kineticFactor 0.10 15 * phFactor 1 6 < (0.78 : ℝ) * 0.9047 := by
    nlinarith [hk.1, hk.2, hph.1, hph.2]
  have h2 : kineticFactor 0.10 15 * phFactor 1 6 * concFactor 0.018 10 5 <
      (0.78 : ℝ) * 0.9047 := by
    nlinarith [h1, hc.1, hc.2, hk.1, hph.1]
  set raw := 55 * kineticFactor 0.10 15 * phFactor 1 6 *
    concFactor 0.018 10 5 * 1.05 * 1.0 + 0 with hraw
  have hrawlt : raw < (40.8 : ℝ) := by
    rw [hraw]
    nlinarith [h2]
  have hv : min 100 (max 0 raw) ≤ (40.8 : ℝ) := by
    apply le_trans (min_le_right _ _)
    exact max_le (by norm_num) hrawlt.le
  have hr := abs_round2_sub (min 100 (max 0 raw))
  rw [abs_le] at hr
  linarith [hr.1, hr.2]

/-! ### Claim C2: the concrete scenario MNCJG, Cd(II), pH 6, conc 5, t 30 -/

/-- C2 counterexample: at material MNCJG (base 92, rate 0.18, pH optimum 6)
and contaminant Cd(II) (high-pH direction, multiplier 1.05, reference
concentration 5), with pH 6, concentration 5, time 30 and no competition,
the pH factor is below 0.92 — not ≈ 0.9909 as claimed — and the returned
mean is below 94.95, outside the claimed window 95.0 ± 0.05. -/
theorem predict_scenario_counterexample :
    phFactor 1 6 < 0.92 ∧
    (predictRemoval "MNCJG" "Cd(II)" 6 5 30 false).mean < 94.95 := by
  have hph := phFactor_one_six_bounds
  refine ⟨by linarith [hph.2], ?_⟩
  rw [predict_MNCJG_Cd_6_5_30_eval, concFactor_008_5_5]
  have hk := kinetic_018_30_bounds
  have h1 : kineticFactor 0.18 30 * phFactor 1 6 < (0.99549 : ℝ) * 0.9047 := by
    nlinarith [hk.1, hk.2, hph.1, hph.2]
  set raw := 92 * kineticFactor 0.18 30 * phFactor 1 6 * 1 * 1.05 * 1.0 + 5
    with hraw
  have hrawlt : raw < (92.01 : ℝ) := by
    rw [hraw]
    nlinarith [h1]
  have hv : min 100 (max 0 raw) ≤ (92.01 : ℝ) :=
    le_trans (min_le_right _ _) (max_le (by norm_num) hrawlt.le)
  have hr := abs_round2_sub (min 100 (max 0 raw))
  rw [abs_le] at hr
  linarith [hr.2]

/-- C2 amended: with the same material, contaminant and inputs the kinetic
factor is 1 − e^(−5.4) ≈ 0.99548, the pH factor is 1/(1+e^(−2.25)) ≈ 0.9046
(not 0.9909), the concentration factor is exactly 1, and the returned mean
is ≈ 91.99 (within ±0.05), not ≈ 95.0. -/
theorem predict_scenario_amended :
    (0.99548 < kineticFactor 0.18 30 ∧ kineticFactor 0.18 30 < 0.99549) ∧
    (0.9045 < phFactor 1 6 ∧ phFactor 1 6 < 0.9047) ∧
    concFactor 0.008 5 5 = 1 ∧
    |(predictRemoval "MNCJG" "Cd(II)" 6 5 30 false).mean - 91.99| ≤ 0.05 := by
  refine ⟨kinetic_018_30_bounds, phFactor_one_six_bounds, concFactor_008_5_5, ?_⟩
  rw [predict_MNCJG_Cd_6_5_30_eval, concFactor_008_5_5]
  have hk := kinetic_018_30_bounds
  have hph := phFactor_one_six_bounds
  have h1 : kineticFactor 0.18 30 * phFactor 1 6 < (0.99549 : ℝ) * 0.9047 := by
    nlinarith [hk.1, hk.2, hph.1, hph.2]
  have h2 : (0.99548 : ℝ) * 0.9045 < kineticFactor 0.18 30 * phFactor 1 6 := by
    nlinarith [hk.1, hk.2, hph.1, hph.2]
  set raw := 92 * kineticFactor 0.18 30 * phFactor 1 6 * 1 * 1.05 * 1.0 + 5
    with hraw
  have hrawlt : raw < (92.01 : ℝ) := by
    rw [hraw]
    nlinarith [h1]
  have hrawgt : (91.97 : ℝ) < raw := by
    rw [hraw]
    nlinarith [h2]
  have hv1 : min 100 (max 0 raw) ≤ (92.01 : ℝ) :=
    le_trans (min_le_right _ _) (max_le (by norm_num) hrawlt.le)
  have hv2 : (91.97 : ℝ) ≤ min 100 (max 0 raw) :=
    le_min (by norm_num) (le_trans hrawgt.le (le_max_right _ _))
  have hr := abs_round2_sub (min 100 (max 0 raw))
  rw [abs_le] at hr
  rw [abs_le]
  constructor
  · linarith [hr.1]
  · linarith [hr.2]

/-! ### The attribution engine `computeSHAP` (App.js:90-101) -/

/-- One feature attribution record `{name, value, absValue}` (App.js:100). -/
structure AttributionItem where
  name : String
  value : ℝ
  absValue : ℝ

/-- The comparator of the attribution sort: descending by `absValue`.  The
JS source sorts with `(a, b) => b.absValue - a.absValue`, and
`Array.prototype.sort` is stable (ES2019), which is exactly
`List.insertionSort` under this relation. -/
def byAbsDesc (f g : AttributionItem) : Prop := g.absValue ≤ f.absValue

noncomputable instance : DecidableRel byAbsDesc :=
  fun f g => Real.decidableLE g.absValue f.absValue

instance : IsTotal AttributionItem byAbsDesc :=
  ⟨fun f g => le_total g.absValue f.absValue⟩

instance : IsTrans AttributionItem byAbsDesc :=
  ⟨fun _ _ _ h1 h2 => le_trans h2 h1⟩

/-- The SHAP-like attribution `computeSHAP` (App.js:90-101): the six factor
contributions, rounded to 2 decimals together with their rounded absolute
values, sorted descending by absolute value with the stable JS sort. -/
noncomputable def computeSHAP (adsorbent pollutant : String)
    (pH concentration time : ℝ) : List AttributionItem :=
  let base := (predictRemoval adsorbent pollutant 6 10 15 false).mean
  let features : List (String × ℝ) :=
    [("Contact Time",
        (predictRemoval adsorbent pollutant 6 10 time false).mean - base),
     ("Initial pH",
        (predictRemoval adsorbent pollutant pH 10 15 false).mean - base),
     ("Concentration",
        (predictRemoval adsorbent pollutant 6 concentration 15 false).mean - base),
     ("Adsorbent Type",
        (predictRemoval adsorbent pollutant 6 10 15 false).mean -
          (predictRemoval "NC" pollutant 6 10 15 false).mean),
     ("Pollutant Type",
        (predictRemoval adsorbent pollutant 6 10 15 false).mean -
          (predictRemoval adsorbent "Cd(II)" 6 10 15 false).mean),
     ("Competition", -3.2)]
  List.insertionSort byAbsDesc
    (features.map (fun f => ⟨f.1, round2 f.2, round2 |f.2|⟩))

/-- Position of a factor name in the declared factor order (App.js:92-99). -/
def declOrder (s : String) : ℕ :=
  if s = "Contact Time" then 0
  else if s = "Initial pH" then 1
  else if s = "Concentration" then 2
  else if s = "Adsorbent Type" then 3
  else if s = "Pollutant Type" then 4
  else 5

/-- Invariant preserved by the stable sort: any two output positions are
either strictly descending in absolute value or were declared in this
relative order. -/
def shapStable (f g : AttributionItem) : Prop :=
  declOrder f.name < declOrder g.name ∨ g.absValue < f.absValue

theorem orderedInsert_shapStable (x : AttributionItem)
    (s : List AttributionItem) (hs : s.Pairwise shapStable)
    (hx : ∀ y ∈ s, declOrder x.name < declOrder y.name) :
    (List.orderedInsert byAbsDesc x s).Pairwise shapStable := by
  induction s with
  | nil => simp [List.orderedInsert]
  | cons y ys ih =>
    rw [List.orderedInsert]
    by_cases hxy : byAbsDesc x y
    · rw [if_pos hxy]
      exact List.Pairwise.cons
        (fun z hz => Or.inl (hx z hz)) hs
    · rw [if_neg hxy]
      have hy : ∀ z ∈ List.orderedInsert byAbsDesc x ys, shapStable y z := by
        intro z hz
        rcases (List.mem_orderedInsert byAbsDesc).mp hz with rfl | hz2
        · exact Or.inr (lt_of_not_le hxy)
        · exact (List.pairwise_cons.mp hs).1 z hz2
      exact List.Pairwise.cons hy
        (ih (List.pairwise_cons.mp hs).2
          (fun z hz => hx z (List.mem_cons_of_mem _ hz)))

theorem insertionSort_shapStable (l : List AttributionItem)
    (hl : l.Pairwise (fun f g => declOrder f.name < declOrder g.name)) :
    (List.insertionSort byAbsDesc l).Pairwise shapStable := by
  induction l with
  | nil => simp [List.insertionSort]
  | cons a l ih =>
    rw [List.insertionSort]
    apply orderedInsert_shapStable
    · exact ih (List.pairwise_cons.mp hl).2
    · intro y hy
      exact (List.pairwise_cons.mp hl).1 y
        ((List.mem_insertionSort byAbsDesc).mp hy)

/-! ### Claim C9: the attribution list is 6 items, sorted, stably -/

/-- C9: for every input, `computeSHAP` returns exactly 6 items, ordered so
that any later item has strictly smaller absolute contribution or, on ties
of absolute contribution, comes later in the declared factor order (Contact
Time, Initial pH, Concentration, Adsorbent Type, Pollutant Type,
Competition) — that is, the sort is descending and stable. -/
theorem computeSHAP_six_sorted_stable (adsorbent pollutant : String)
    (pH concentration time : ℝ) :
    (computeSHAP adsorbent pollutant pH concentration time).length = 6 ∧
    (computeSHAP adsorbent pollutant pH concentration time).Pairwise
      (fun f g => g.absValue < f.absValue ∨
        (f.absValue = g.absValue ∧ declOrder f.name < declOrder g.name)) := by
  constructor
  · unfold computeSHAP
    rw [List.length_insertionSort, List.length_map]
    rfl
  · have hst : (computeSHAP adsorbent pollutant pH concentration time).Pairwise
        shapStable := by
      unfold computeSHAP
      apply insertionSort_shapStable
      rw [List.pairwise_map]
      have hnames : (["Contact Time", "Initial pH", "Concentration",
          "Adsorbent Type", "Pollutant Type", "Competition"] :
            List String).Pairwise (fun a b => declOrder a < declOrder b) := by
        decide
      exact List.Pairwise.of_map Prod.fst (fun a b h => h) hnames
    have hso : (computeSHAP adsorbent pollutant pH concentration time).Pairwise
        byAbsDesc := by
      unfold computeSHAP
      exact List.sorted_insertionSort byAbsDesc _
    refine (hst.and hso).imp ?_
    rintro a b ⟨h1, h2⟩
    rcases h1 with h1 | h1
    · rcases lt_or_eq_of_le h2 with h3 | h3
      · exact Or.inl h3
      · exact Or.inr ⟨h3.symm, h1⟩
    · exact Or.inl h1

/-! ### Claim C1: which baseline the first three contributions use -/

theorem centi_sub {a b : ℝ} (ha : ∃ k : ℤ, a = (k : ℝ) / 100)
    (hb : ∃ k : ℤ, b = (k : ℝ) / 100) : ∃ k : ℤ, a - b = (k : ℝ) / 100 := by
  obtain ⟨k, rfl⟩ := ha
  obtain ⟨m, rfl⟩ := hb
  exact ⟨k - m, by push_cast; ring⟩

theorem round2_neg_32 : round2 (-3.2) = -3.2 := by
  rw [show (-3.2 : ℝ) = ((-320 : ℤ) : ℝ) / 100 by norm_num]
  exact round2_intCast (-320)

theorem round2_abs_neg_32 : round2 |(-3.2 : ℝ)| = 3.2 := by
  rw [show |(-3.2 : ℝ)| = ((320 : ℤ) : ℝ) / 100 by
    rw [abs_of_nonpos] <;> norm_num]
  rw [round2_intCast]
  norm_num

/-- C1 amended: the six attribution items returned by `explain` are, up to
the descending reordering, exactly the declared six; the first three are
differences of the prediction at a single perturbed input against the
baseline `predict(material, contaminant, pH 6, concentration 10, time 15)`
taken at the ACTUAL material and contaminant of the call (the designated
reference material NC and reference contaminant Cd(II) appear only inside
the Adsorbent Type and Pollutant Type contributions); in particular the
Contact Time contribution is exactly
`predict(material, contaminant, 6, 10, actualTime).mean - baseline`. -/
theorem computeSHAP_entries (adsorbent pollutant : String)
    (pH concentration time : ℝ) :
    (computeSHAP adsorbent pollutant pH concentration time).Perm
      [⟨"Contact Time",
          (predictRemoval adsorbent pollutant 6 10 time false).mean -
            (predictRemoval adsorbent pollutant 6 10 15 false).mean,
          |(predictRemoval adsorbent pollutant 6 10 time false).mean -
            (predictRemoval adsorbent pollutant 6 10 15 false).mean|⟩,
       ⟨"Initial pH",
          (predictRemoval adsorbent pollutant pH 10 15 false).mean -
            (predictRemoval adsorbent pollutant 6 10 15 false).mean,
          |(predictRemoval adsorbent pollutant pH 10 15 false).mean -
            (predictRemoval adsorbent pollutant 6 10 15 false).mean|⟩,
       ⟨"Concentration",
          (predictRemoval adsorbent pollutant 6 concentration 15 false).mean -
            (predictRemoval adsorbent pollutant 6 10 15 false).mean,
          |(predictRemoval adsorbent pollutant 6 concentration 15 false).mean -
            (predictRemoval adsorbent pollutant 6 10 15 false).mean|⟩,
       ⟨"Adsorbent Type",
          (predictRemoval adsorbent pollutant 6 10 15 false).mean -
            (predictRemoval "NC" pollutant 6 10 15 false).mean,
          |(predictRemoval adsorbent pollutant 6 10 15 false).mean -
            (predictRemoval "NC" pollutant 6 10 15 false).mean|⟩,
       ⟨"Pollutant Type",
          (predictRemoval adsorbent pollutant 6 10 15 false).mean -
            (predictRemoval adsorbent "Cd(II)" 6 10 15 false).mean,
          |(predictRemoval adsorbent pollutant 6 10 15 false).mean -
            (predictRemoval adsorbent "Cd(II)" 6 10 15 false).mean|⟩,
       ⟨"Competition", -3.2, 3.2⟩] := by
  have c0 := predict_mean_centi adsorbent pollutant 6 10 time false
  have c1 := predict_mean_centi adsorbent pollutant 6 10 15 false
  have c2 := predict_mean_centi adsorbent pollutant pH 10 15 false
  have c3 := predict_mean_centi adsorbent pollutant 6 concentration 15 false
  have c4 := predict_mean_centi "NC" pollutant 6 10 15 false
  have c5 := predict_mean_centi adsorbent "Cd(II)" 6 10 15 false
  unfold computeSHAP
  simp only [List.map]
  refine (List.perm_insertionSort _ _).trans ?_
  rw [round2_centi_sub c0 c1, round2_centi_abs (centi_sub c0 c1),
    round2_centi_sub c2 c1, round2_centi_abs (centi_sub c2 c1),
    round2_centi_sub c3 c1, round2_centi_abs (centi_sub c3 c1),
    round2_centi_sub c1 c4, round2_centi_abs (centi_sub c1 c4),
    round2_centi_sub c1 c5, round2_centi_abs (centi_sub c1 c5),
    round2_neg_32, round2_abs_neg_32]

/-- C1 counterexample: at material MNCJG, contaminant Cd(II), pH 6,
concentration 10 and time 15 the Contact Time contribution produced by the
code is 0, whereas the claim's baseline — `predict` at the designated
reference material NC with the designated reference contaminant Cd(II) —
would make it ≈ 83.5 − 37 > 0; so no output item named Contact Time carries
the claimed value. -/
theorem computeSHAP_baseline_counterexample :
    ¬ ∃ f ∈ computeSHAP "MNCJG" "Cd(II)" 6 10 15,
        f.name = "Contact Time" ∧
        f.value = (predictRemoval "MNCJG" "Cd(II)" 6 10 15 false).mean -
          (predictRemoval "NC" "Cd(II)" 6 10 15 false).mean := by
  rintro ⟨f, hmem, hname, hval⟩
  have hMN := mean_MNCJG_Cd_6_10_15_gt
  have hNC := mean_NC_Cd_6_10_15_lt
  simp only [computeSHAP, List.mem_insertionSort, List.mem_map,
    List.mem_cons, List.not_mem_nil, or_false] at hmem
  obtain ⟨x, hx, rfl⟩ := hmem
  rcases hx with rfl | rfl | rfl | rfl | rfl | rfl
  · simp only at hval
    rw [sub_self, round2_zero] at hval
    linarith [hval]
  · exact absurd hname (by decide)
  · exact absurd hname (by decide)
  · exact absurd hname (by decide)
  · exact absurd hname (by decide)
  · exact absurd hname (by decide)

/-! ### The optimizer `bayesianOptimize` (App.js:63-87)

The three `Math.random()` draws of iteration `i` are modelled as the
explicit stream values `u (3*i)`, `u (3*i+1)`, `u (3*i+2)`. -/

/-- One history record pushed per iteration (App.js:78). -/
structure OptEntry where
  iteration : ℕ
  pH : ℝ
  time : ℝ
  concentration : ℝ
  predicted : ℝ
  std : ℝ
  score : ℝ

/-- The running best parameters record (App.js:82). -/
structure OptBest where
  pH : ℝ
  time : ℝ
  concentration : ℝ
  predicted : ℝ
  std : ℝ

/-- Sampled pH of iteration `i`: `phRange[0] + random * (phRange[1] - phRange[0])`
(App.js:69). -/
noncomputable def trialPH (phRange : ℝ × ℝ) (u : ℕ → ℝ) (i : ℕ) : ℝ :=
  phRange.1 + u (3 * i) * (phRange.2 - phRange.1)

/-- Sampled time of iteration `i` (App.js:70). -/
noncomputable def trialTime (timeRange : ℝ × ℝ) (u : ℕ → ℝ) (i : ℕ) : ℝ :=
  timeRange.1 + u (3 * i + 1) * (timeRange.2 - timeRange.1)

/-- Sampled concentration of iteration `i` (App.js:71). -/
noncomputable def trialConc (concRange : ℝ × ℝ) (u : ℕ → ℝ) (i : ℕ) : ℝ :=
  concRange.1 + u (3 * i + 2) * (concRange.2 - concRange.1)

/-- The prediction of iteration `i` (App.js:73); the competition flag is
fixed to false for search trials. -/
noncomputable def trialPred (pollutant adsorbent : String)
    (phR tR cR : ℝ × ℝ) (u : ℕ → ℝ) (i : ℕ) : PredictionResult :=
  predictRemoval adsorbent pollutant (trialPH phR u i) (trialConc cR u i)
    (trialTime tR u i) false

/-- The acquisition score of iteration `i` (App.js:75-76): over target,
`mean - 0.1*std`; otherwise the expected-improvement form
`mean - target + 0.5*std`. -/
noncomputable def trialScore (pollutant adsorbent : String)
    (targetRemoval : ℝ) (phR tR cR : ℝ × ℝ) (u : ℕ → ℝ) (i : ℕ) : ℝ :=
  if targetRemoval ≤ (trialPred pollutant adsorbent phR tR cR u i).mean then
    (trialPred pollutant adsorbent phR tR cR u i).mean -
      0.1 * (trialPred pollutant adsorbent phR tR cR u i).std
  else
    (trialPred pollutant adsorbent phR tR cR u i).mean - targetRemoval +
      0.5 * (trialPred pollutant adsorbent phR tR cR u i).std

/-- The history record of iteration `i` (App.js:78): sampled inputs rounded
for display, prediction, and the rounded score. -/
noncomputable def trialEntry (pollutant adsorbent : String)
    (targetRemoval : ℝ) (phR tR cR : ℝ × ℝ) (u : ℕ → ℝ) (i : ℕ) : OptEntry :=
  ⟨i + 1, round2 (trialPH phR u i), round1 (trialTime tR u i),
    round1 (trialConc cR u i),
    (trialPred pollutant adsorbent phR tR cR u i).mean,
    (trialPred pollutant adsorbent phR tR cR u i).std,
    round2 (trialScore pollutant adsorbent targetRemoval phR tR cR u i)⟩

/-- The best-parameters record of iteration `i` (App.js:82). -/
noncomputable def trialBest (pollutant adsorbent : String)
    (phR tR cR : ℝ × ℝ) (u : ℕ → ℝ) (i : ℕ) : OptBest :=
  ⟨round2 (trialPH phR u i), round1 (trialTime tR u i),
    round1 (trialConc cR u i),
    (trialPred pollutant adsorbent phR tR cR u i).mean,
    (trialPred pollutant adsorbent phR tR cR u i).std⟩

/-- The loop of App.js:68-84 after `n` iterations: the running best as
`some (bestScore, bestParams)` (`none` encodes the initial
`bestScore = -Infinity`, `bestParams = null`, which any real score beats),
and the accumulated history. -/
noncomputable def optLoop (pollutant adsorbent : String) (targetRemoval : ℝ)
    (phR tR cR : ℝ × ℝ) (u : ℕ → ℝ) :
    ℕ → Option (ℝ × OptBest) × List OptEntry
  | 0 => (none, [])
  | n + 1 =>
    let prev := optLoop pollutant adsorbent targetRemoval phR tR cR u n
    let score := trialScore pollutant adsorbent targetRemoval phR tR cR u n
    let hist := prev.2 ++
      [trialEntry pollutant adsorbent targetRemoval phR tR cR u n]
    match prev.1 with
    | none =>
        (some (score, trialBest pollutant adsorbent phR tR cR u n), hist)
    | some (bs, bp) =>
        if bs < score then
          (some (score, trialBest pollutant adsorbent phR tR cR u n), hist)
        else (some (bs, bp), hist)

/-- The optimizer `bayesianOptimize` (App.js:63-87): returns
`{best, history}`; `best` is `null` (`none`) only when no iteration ran. -/
noncomputable def bayesianOptimize (pollutant adsorbent : String)
    (targetRemoval : ℝ) (phRange timeRange concRange : ℝ × ℝ) (nIter : ℕ)
    (u : ℕ → ℝ) : Option OptBest × List OptEntry :=
  ((optLoop pollutant adsorbent targetRemoval phRange timeRange concRange
      u nIter).1.map Prod.snd,
    (optLoop pollutant adsorbent targetRemoval phRange timeRange concRange
      u nIter).2)

/-- Index of the running best after `n ≥ 1` iterations: the first index
attaining the maximal acquisition score (strict-improvement updates). -/
noncomputable def bestIdx (pollutant adsorbent : String) (targetRemoval : ℝ)
    (phR tR cR : ℝ × ℝ) (u : ℕ → ℝ) : ℕ → ℕ
  | 0 => 0
  | 1 => 0
  | n + 2 =>
    if trialScore pollutant adsorbent targetRemoval phR tR cR u
        (bestIdx pollutant adsorbent targetRemoval phR tR cR u (n + 1)) <
      trialScore pollutant adsorbent targetRemoval phR tR cR u (n + 1)
    then n + 1
    else bestIdx pollutant adsorbent targetRemoval phR tR cR u (n + 1)

theorem optLoop_history (pollutant adsorbent : String) (targetRemoval : ℝ)
    (phR tR cR : ℝ × ℝ) (u : ℕ → ℝ) (n : ℕ) :
    (optLoop pollutant adsorbent targetRemoval phR tR cR u n).2 =
      (List.range n).map
        (trialEntry pollutant adsorbent targetRemoval phR tR cR u) := by
  induction n with
  | zero => rfl
  | succ n ih =>
    rcases h : (optLoop pollutant adsorbent targetRemoval phR tR cR u n).1
      with _ | ⟨bs, bp⟩
    · simp only [optLoop, h, ih, List.range_succ, List.map_append,
        List.map_cons, List.map_nil]
    · simp only [optLoop, h, ih, List.range_succ, List.map_append,
        List.map_cons, List.map_nil]
      split_ifs <;> rfl

theorem optLoop_best (pollutant adsorbent : String) (targetRemoval : ℝ)
    (phR tR cR : ℝ × ℝ) (u : ℕ → ℝ) (n : ℕ) (hn : 1 ≤ n) :
    (optLoop pollutant adsorbent targetRemoval phR tR cR u n).1 =
      some (trialScore pollutant adsorbent targetRemoval phR tR cR u
          (bestIdx pollutant adsorbent targetRemoval phR tR cR u n),
        trialBest pollutant adsorbent phR tR cR u
          (bestIdx pollutant adsorbent targetRemoval phR tR cR u n)) := by
  induction n with
  | zero => exact absurd hn (by norm_num)
  | succ n ih =>
    cases n with
    | zero => simp [optLoop, bestIdx]
    | succ k =>
      have ih2 := ih (by omega)
      have e : bestIdx pollutant adsorbent targetRemoval phR tR cR u (k + 2) =
          if trialScore pollutant adsorbent targetRemoval phR tR cR u
              (bestIdx pollutant adsorbent targetRemoval phR tR cR u (k + 1)) <
            trialScore pollutant adsorbent targetRemoval phR tR cR u (k + 1)
          then k + 1
          else bestIdx pollutant adsorbent targetRemoval phR tR cR u (k + 1) := by
        rw [bestIdx]
      rw [show k + 1 + 1 = k + 2 from rfl] at *
      conv_lhs => rw [optLoop]
      simp only [ih2, e]
      split_ifs with h <;> rfl

theorem bestIdx_spec (pollutant adsorbent : String) (targetRemoval : ℝ)
    (phR tR cR : ℝ × ℝ) (u : ℕ → ℝ) (n : ℕ) (hn : 1 ≤ n) :
    bestIdx pollutant adsorbent targetRemoval phR tR cR u n < n ∧
    (∀ i, i < n →
      trialScore pollutant adsorbent targetRemoval phR tR cR u i ≤
        trialScore pollutant adsorbent targetRemoval phR tR cR u
          (bestIdx pollutant adsorbent targetRemoval phR tR cR u n)) ∧
    (∀ i, i < bestIdx pollutant adsorbent targetRemoval phR tR cR u n →
      trialScore pollutant adsorbent targetRemoval phR tR cR u i <
        trialScore pollutant adsorbent targetRemoval phR tR cR u
          (bestIdx pollutant adsorbent targetRemoval phR tR cR u n)) := by
  induction n with
  | zero => exact absurd hn (by norm_num)
  | succ n ih =>
    cases n with
    | zero =>
      refine ⟨by norm_num [bestIdx], ?_, ?_⟩
      · intro i hi
        have hi0 : i = 0 := by omega
        subst hi0
        simp [bestIdx]
      · intro i hi
        simp only [bestIdx] at hi
        omega
    | succ k =>
      obtain ⟨hlt, hmax, hstrict⟩ := ih (by omega)
      have e : bestIdx pollutant adsorbent targetRemoval phR tR cR u (k + 2) =
          if trialScore pollutant adsorbent targetRemoval phR tR cR u
              (bestIdx pollutant adsorbent targetRemoval phR tR cR u (k + 1)) <
            trialScore pollutant adsorbent targetRemoval phR tR cR u (k + 1)
          then k + 1
          else bestIdx pollutant adsorbent targetRemoval phR tR cR u (k + 1) := by
        rw [bestIdx]
      rw [show k + 1 + 1 = k + 2 from rfl] at *
      rw [e]
      split_ifs with h
      · refine ⟨by omega, ?_, ?_⟩
        · intro i hi
          rcases lt_or_eq_of_le (Nat.lt_succ_iff.mp hi) with hi2 | hi2
          · exact le_of_lt (lt_of_le_of_lt (hmax i hi2) h)
          · subst hi2
            exact le_refl _
        · intro i hi
          exact lt_of_le_of_lt (hmax i hi) h
      · refine ⟨by omega, ?_, ?_⟩
        · intro i hi
          rcases lt_or_eq_of_le (Nat.lt_succ_iff.mp hi) with hi2 | hi2
          · exact hmax i hi2
          · subst hi2
            exact le_of_not_lt h
        · exact hstrict

/-! ### Claim C6: history length and iteration indices -/

/-- C6: for every search call with `n` requested iterations, the returned
history has length exactly `n` and its 1-based iteration indices, read in
order, are exactly 1, 2, ..., n — no gaps and no duplicates. -/
theorem optimize_history_indices (pollutant adsorbent : String)
    (targetRemoval : ℝ) (phR tR cR : ℝ × ℝ) (n : ℕ) (u : ℕ → ℝ) :
    (bayesianOptimize pollutant adsorbent targetRemoval phR tR cR n u).2.length
        = n ∧
    (bayesianOptimize pollutant adsorbent targetRemoval phR tR cR n u).2.map
        (fun e => e.iteration) = (List.range n).map (fun i => i + 1) := by
  have h := optLoop_history pollutant adsorbent targetRemoval phR tR cR u n
  unfold bayesianOptimize
  rw [h]
  constructor
  · rw [List.length_map, List.length_range]
  · rw [List.map_map]
    rfl

/-! ### Claim C5: the returned best dominates every trial score -/

/-- C5: for every search call with at least one iteration, the returned
best is the sample of some trial `j` whose acquisition score is maximal
among all trials; a trial replaces the running best only on a strictly
greater score, so on ties the lowest iteration index is retained (`j ≤ i`
for every tying trial `i`), and every history entry's stored (2-decimal
rounded) score is at most the rounding of the best score. -/
theorem optimize_best_score_max (pollutant adsorbent : String)
    (targetRemoval : ℝ) (phR tR cR : ℝ × ℝ) (n : ℕ) (u : ℕ → ℝ)
    (hn : 1 ≤ n) :
    ∃ j, j < n ∧
      (bayesianOptimize pollutant adsorbent targetRemoval phR tR cR n u).1 =
        some (trialBest pollutant adsorbent phR tR cR u j) ∧
      (∀ i, i < n →
        trialScore pollutant adsorbent targetRemoval phR tR cR u i ≤
          trialScore pollutant adsorbent targetRemoval phR tR cR u j ∧
        (trialScore pollutant adsorbent targetRemoval phR tR cR u i =
            trialScore pollutant adsorbent targetRemoval phR tR cR u j →
          j ≤ i)) ∧
      ∀ e ∈ (bayesianOptimize pollutant adsorbent targetRemoval phR tR cR
          n u).2,
        e.score ≤
          round2 (trialScore pollutant adsorbent targetRemoval phR tR cR u j) := by
  obtain ⟨hlt, hmax, hstrict⟩ :=
    bestIdx_spec pollutant adsorbent targetRemoval phR tR cR u n hn
  refine ⟨bestIdx pollutant adsorbent targetRemoval phR tR cR u n, hlt,
    ?_, ?_, ?_⟩
  · unfold bayesianOptimize
    rw [optLoop_best pollutant adsorbent targetRemoval phR tR cR u n hn]
    rfl
  · intro i hi
    refine ⟨hmax i hi, fun heq => ?_⟩
    by_contra hji
    exact absurd heq (ne_of_lt (hstrict i (by omega)))
  · intro e he
    unfold bayesianOptimize at he
    rw [optLoop_history] at he
    obtain ⟨i, hi, rfl⟩ := List.mem_map.mp he
    exact round2_mono (hmax i (List.mem_range.mp hi))

/-- Witness for C5: one iteration, constant random stream 0. -/
theorem optimize_best_score_max_witness :
    1 ≤ 1 ∧
    ∃ j, j < 1 ∧
      (bayesianOptimize "Cd(II)" "MNCJG" 95 (4, 8) (5, 30) (1, 20) 1
          (fun _ => 0)).1 =
        some (trialBest "Cd(II)" "MNCJG" (4, 8) (5, 30) (1, 20)
          (fun _ => 0) j) ∧
      (∀ i, i < 1 →
        trialScore "Cd(II)" "MNCJG" 95 (4, 8) (5, 30) (1, 20) (fun _ => 0) i ≤
          trialScore "Cd(II)" "MNCJG" 95 (4, 8) (5, 30) (1, 20) (fun _ => 0) j ∧
        (trialScore "Cd(II)" "MNCJG" 95 (4, 8) (5, 30) (1, 20) (fun _ => 0) i =
            trialScore "Cd(II)" "MNCJG" 95 (4, 8) (5, 30) (1, 20)
              (fun _ => 0) j →
          j ≤ i)) ∧
      ∀ e ∈ (bayesianOptimize "Cd(II)" "MNCJG" 95 (4, 8) (5, 30) (1, 20) 1
          (fun _ => 0)).2,
        e.score ≤
          round2 (trialScore "Cd(II)" "MNCJG" 95 (4, 8) (5, 30) (1, 20)
            (fun _ => 0) j) :=
  ⟨le_refl 1, optimize_best_score_max "Cd(II)" "MNCJG" 95 (4, 8) (5, 30)
    (1, 20) 1 (fun _ => 0) (le_refl 1)⟩

/-! ### Claim C10: the best equals the first argmax history entry -/

/-- C10: for every search call with at least one iteration, the returned
best is non-null and its pH, time, concentration, predicted and std fields
coincide with those of the history entry at position `j`, where `j` is the
first trial attaining the maximum acquisition score over all trials. -/
theorem optimize_best_first_argmax (pollutant adsorbent : String)
    (targetRemoval : ℝ) (phR tR cR : ℝ × ℝ) (n : ℕ) (u : ℕ → ℝ)
    (hn : 1 ≤ n) :
    ∃ b, (bayesianOptimize pollutant adsorbent targetRemoval phR tR cR
        n u).1 = some b ∧
      ∃ j, ∃ hj : j < (bayesianOptimize pollutant adsorbent targetRemoval
          phR tR cR n u).2.length,
        (b.pH = ((bayesianOptimize pollutant adsorbent targetRemoval phR tR
            cR n u).2.get ⟨j, hj⟩).pH ∧
         b.time = ((bayesianOptimize pollutant adsorbent targetRemoval phR
            tR cR n u).2.get ⟨j, hj⟩).time ∧
         b.concentration = ((bayesianOptimize pollutant adsorbent
            targetRemoval phR tR cR n u).2.get ⟨j, hj⟩).concentration ∧
         b.predicted = ((bayesianOptimize pollutant adsorbent targetRemoval
            phR tR cR n u).2.get ⟨j, hj⟩).predicted ∧
         b.std = ((bayesianOptimize pollutant adsorbent targetRemoval phR
            tR cR n u).2.get ⟨j, hj⟩).std) ∧
        (∀ i, i < n →
          trialScore pollutant adsorbent targetRemoval phR tR cR u i ≤
            trialScore pollutant adsorbent targetRemoval phR tR cR u j) ∧
        (∀ i, i < j →
          trialScore pollutant adsorbent targetRemoval phR tR cR u i <
            trialScore pollutant adsorbent targetRemoval phR tR cR u j) := by
  obtain ⟨hlt, hmax, hstrict⟩ :=
    bestIdx_spec pollutant adsorbent targetRemoval phR tR cR u n hn
  have hlen : (bayesianOptimize pollutant adsorbent targetRemoval phR tR cR
      n u).2.length = n := by
    unfold bayesianOptimize
    rw [optLoop_history, List.length_map, List.length_range]
  have hjlen : bestIdx pollutant adsorbent targetRemoval phR tR cR u n <
      (bayesianOptimize pollutant adsorbent targetRemoval phR tR cR
        n u).2.length := by
    rw [hlen]
    exact hlt
  have hget : (bayesianOptimize pollutant adsorbent targetRemoval phR tR cR
      n u).2.get ⟨bestIdx pollutant adsorbent targetRemoval phR tR cR u n,
        hjlen⟩ =
      trialEntry pollutant adsorbent targetRemoval phR tR cR u
        (bestIdx pollutant adsorbent targetRemoval phR tR cR u n) := by
    simp only [List.get_eq_getElem, bayesianOptimize, optLoop_history,
      List.getElem_map, List.getElem_range]
  refine ⟨trialBest pollutant adsorbent phR tR cR u
      (bestIdx pollutant adsorbent targetRemoval phR tR cR u n), ?_,
    bestIdx pollutant adsorbent targetRemoval phR tR cR u n, hjlen, ?_,
    hmax, hstrict⟩
  · unfold bayesianOptimize
    rw [optLoop_best pollutant adsorbent targetRemoval phR tR cR u n hn]
    rfl
  · rw [hget]
    exact ⟨rfl, rfl, rfl, rfl, rfl⟩

/-- Witness for C10: one iteration, constant random stream 0. -/
theorem optimize_best_first_argmax_witness :
    1 ≤ 1 ∧
    ∃ b, (bayesianOptimize "Cd(II)" "MNCJG" 95 (4, 8) (5, 30) (1, 20) 1
        (fun _ => 0)).1 = some b ∧
      ∃ j, ∃ hj : j < (bayesianOptimize "Cd(II)" "MNCJG" 95 (4, 8) (5, 30)
          (1, 20) 1 (fun _ => 0)).2.length,
        (b.pH = ((bayesianOptimize "Cd(II)" "MNCJG" 95 (4, 8) (5, 30)
            (1, 20) 1 (fun _ => 0)).2.get ⟨j, hj⟩).pH ∧
         b.time = ((bayesianOptimize "Cd(II)" "MNCJG" 95 (4, 8) (5, 30)
            (1, 20) 1 (fun _ => 0)).2.get ⟨j, hj⟩).time ∧
         b.concentration = ((bayesianOptimize "Cd(II)" "MNCJG" 95 (4, 8)
            (5, 30) (1, 20) 1 (fun _ => 0)).2.get ⟨j, hj⟩).concentration ∧
         b.predicted = ((bayesianOptimize "Cd(II)" "MNCJG" 95 (4, 8) (5, 30)
            (1, 20) 1 (fun _ => 0)).2.get ⟨j, hj⟩).predicted ∧
         b.std = ((bayesianOptimize "Cd(II)" "MNCJG" 95 (4, 8) (5, 30)
            (1, 20) 1 (fun _ => 0)).2.get ⟨j, hj⟩).std) ∧
        (∀ i, i < 1 →
          trialScore "Cd(II)" "MNCJG" 95 (4, 8) (5, 30) (1, 20)
              (fun _ => 0) i ≤
            trialScore "Cd(II)" "MNCJG" 95 (4, 8) (5, 30) (1, 20)
              (fun _ => 0) j) ∧
        (∀ i, i < j →
          trialScore "Cd(II)" "MNCJG" 95 (4, 8) (5, 30) (1, 20)
              (fun _ => 0) i <
            trialScore "Cd(II)" "MNCJG" 95 (4, 8) (5, 30) (1, 20)
              (fun _ => 0) j) :=
  ⟨le_refl 1, optimize_best_first_argmax "Cd(II)" "MNCJG" 95 (4, 8) (5, 30)
    (1, 20) 1 (fun _ => 0) (le_refl 1)⟩

end Mncjg
